import Mathlib

/-!
# Verification of the CEF interop-bridge core against its specification

Shallow embedding of the four source files of the repository
(`src/refcounted.rs`, `src/urlrequest.rs`, `src/render_process_handler.rs`,
`src/browser_host.rs`).  Machine integers are modelled as `Nat`/`Int` with
explicit reduction modulo `2 ^ w` where wrap-around matters; heap allocation
status of the dual-layout container is modelled as `Option` (`some` =
allocated, `none` = freed); Rust panics escaping a function are modelled by an
`Option`-valued result (`none` = panic).
-/

namespace Cef

/-! ## `src/refcounted.rs` — the dual-layout container

The Rust struct:

```rust
#[repr(C)]
pub(crate) struct RefCounted<C: RefCounter + Sized, R> {
    cefobj: C,
    refcount: AtomicUsize,
    object: R,
}
```

The refcount is an `AtomicUsize`; we model its value as a `Nat` together with
wrap-around arithmetic modulo `2 ^ 64`.
-/

def USIZE_MOD : Nat := 2 ^ 64

/-- `AtomicUsize::fetch_add(1)` stored value (the returned old value is the
argument itself). -/
def usizeAdd1 (n : Nat) : Nat := (n + 1) % USIZE_MOD

/-- `AtomicUsize::fetch_sub(1)` stored value: wrapping subtraction. -/
def usizeSub1 (n : Nat) : Nat := (n + (USIZE_MOD - 1)) % USIZE_MOD

/-- The dual-layout container `RefCounted<C, R>`: the foreign-shaped vtable
value `cefobj`, the atomic counter, and the safe payload `object`. -/
structure RefCounted (C R : Type) where
  cefobj : C
  refcount : Nat
  object : R
deriving DecidableEq

variable {C R : Type}

/-- `ManuallyDrop<Box<RefCounted<C, R>>>`: a box whose destructor is
suppressed unless it is taken out with `into_inner`. -/
structure ManuallyDrop (T : Type) where
  value : T
deriving DecidableEq

/-- Dropping a `ManuallyDrop` at end of scope: the inner destructor is
suppressed, the heap cell is left untouched. -/
def ManuallyDrop.scopeDrop {T : Type} (_this : ManuallyDrop T) (heap : Option T) :
    Option T :=
  heap

/-- `ManuallyDrop::into_inner(this)` whose resulting `Box` is immediately
dropped: the box destructor runs and frees the heap cell. -/
def ManuallyDrop.intoInnerDrop {T : Type} (_this : ManuallyDrop T) (_heap : Option T) :
    Option T :=
  none

/-- `RefCounted::make_temp`: reconstruct a borrowed, non-dropping view of the
container from the raw self pointer (`ManuallyDrop::new(Box::from_raw(ptr))`). -/
def RefCounted.make_temp (s : RefCounted C R) : ManuallyDrop (RefCounted C R) :=
  ⟨s⟩

/-- `RefCounted::new`: allocate the container with the counter initialized
to 1 (the single owning handle returned at construction). -/
def RefCounted.new (cefobj : C) (object : R) : RefCounted C R :=
  { cefobj := cefobj, refcount := 1, object := object }

/-- `RefCounted::add_ref`: `make_temp` the self pointer, `fetch_add(1)` on the
counter, let the `ManuallyDrop` go out of scope.  Returns the heap cell after
the call. -/
def RefCounted.add_ref (s : RefCounted C R) : Option (RefCounted C R) :=
  let this : ManuallyDrop (RefCounted C R) := RefCounted.make_temp s
  let stored : RefCounted C R :=
    { this.value with refcount := usizeAdd1 this.value.refcount }
  ManuallyDrop.scopeDrop ⟨stored⟩ (some stored)

/-- Result of `RefCounted::release`: the container contents right after the
`fetch_sub` store, the heap cell after the whole call (`none` = freed), and
the `c_int` return value. -/
structure ReleaseResult (C R : Type) where
  stored : RefCounted C R
  heap : Option (RefCounted C R)
  ret : Int
deriving DecidableEq

/-- `RefCounted::release`, exactly as in the source:

```rust
let mut this = unsafe { Self::make_temp(ref_counted as *mut C) };
if this.refcount.fetch_sub(1, Ordering::AcqRel) > 1 {
    ManuallyDrop::into_inner(this);
    0
} else { 1 }
```

`fetch_sub` returns the old counter value and stores the decremented one;
`ManuallyDrop::into_inner(this)` produces a `Box` that is dropped at once,
freeing the container. -/
def RefCounted.release (s : RefCounted C R) : ReleaseResult C R :=
  let this : ManuallyDrop (RefCounted C R) := RefCounted.make_temp s
  let old : Nat := this.value.refcount
  let stored : RefCounted C R := { this.value with refcount := usizeSub1 old }
  if old > 1 then
    { stored := stored
      heap := ManuallyDrop.intoInnerDrop ⟨stored⟩ (some stored)
      ret := 0 }
  else
    { stored := stored
      heap := ManuallyDrop.scopeDrop ⟨stored⟩ (some stored)
      ret := 1 }

/-- `RefCounted::has_one_ref`: snapshot load of the counter, compare with 1;
the borrowed view is dropped without effect.  Returns the heap cell after the
call and the `c_int` result. -/
def RefCounted.has_one_ref (s : RefCounted C R) :
    Option (RefCounted C R) × Int :=
  let this : ManuallyDrop (RefCounted C R) := RefCounted.make_temp s
  let counter : Nat := this.value.refcount
  (ManuallyDrop.scopeDrop this (some this.value), if counter = 1 then 1 else 0)

/-- `RefCounted::has_at_least_one_ref`: snapshot load of the counter, compare
with 1; the borrowed view is dropped without effect. -/
def RefCounted.has_at_least_one_ref (s : RefCounted C R) :
    Option (RefCounted C R) × Int :=
  let this : ManuallyDrop (RefCounted C R) := RefCounted.make_temp s
  let counter : Nat := this.value.refcount
  (ManuallyDrop.scopeDrop this (some this.value), if counter ≥ 1 then 1 else 0)

lemma usizeSub1_eq_sub_one {n : Nat} (h1 : 1 ≤ n) (h2 : n < USIZE_MOD) :
    usizeSub1 n = n - 1 := by
  unfold usizeSub1
  have hrw : n + (USIZE_MOD - 1) = (n - 1) + USIZE_MOD := by
    have : 1 ≤ USIZE_MOD := Nat.one_le_two_pow
    omega
  rw [hrw, Nat.add_mod_right]
  exact Nat.mod_eq_of_lt (by omega)

end Cef

/-! ## Theorems for the claims about `src/refcounted.rs` -/

/-- C6: for every pre-call counter value of at least 1 (and within the `usize`
range), `RefCounted::release` subtracts exactly 1 from the counter, and
returns the "object destroyed" report `1` if and only if the counter was
exactly 1 before the subtraction, returning the "object still alive" report
`0` otherwise. -/
theorem Cef.release_counter_spec {C R : Type} (s : Cef.RefCounted C R)
    (h1 : 1 ≤ s.refcount) (h2 : s.refcount < Cef.USIZE_MOD) :
    (Cef.RefCounted.release s).stored.refcount = s.refcount - 1 ∧
    ((Cef.RefCounted.release s).ret = 1 ↔ s.refcount = 1) ∧
    (s.refcount ≠ 1 → (Cef.RefCounted.release s).ret = 0) := by
  have hsub := Cef.usizeSub1_eq_sub_one h1 h2
  by_cases hgt : s.refcount > 1 <;>
    simp [Cef.RefCounted.release, Cef.RefCounted.make_temp, hgt, hsub] <;>
    omega

/-- Witness for C6: concrete evaluation at a container with counter 2. -/
theorem Cef.release_counter_spec_witness :
    (1 ≤ (Cef.RefCounted.new () () |>.add_ref.getD (Cef.RefCounted.new () ())).refcount) ∧
    ((Cef.RefCounted.release ((Cef.RefCounted.new () ()).add_ref.getD
        (Cef.RefCounted.new () ()))).stored.refcount = 1) := by
  have h := Cef.release_counter_spec
    ((Cef.RefCounted.new () ()).add_ref.getD (Cef.RefCounted.new () ()))
    (by decide) (by decide)
  exact ⟨by decide, h.1⟩

/-- C1 (code bug): contrary to the claim, the code deallocates the container
at a `release` call whose pre-decrement counter is greater than 1 (here 2),
while reporting "object still alive" (0); and at the release whose
pre-decrement counter is 1 — where the claim requires deallocation — the
container is leaked (the heap cell survives with counter 0) while the call
reports "destroyed" (1).  The `ManuallyDrop::into_inner` call sits in the
wrong branch of the comparison. -/
theorem Cef.release_dealloc_inverted :
    (Cef.RefCounted.release (⟨(), 2, ()⟩ : Cef.RefCounted Unit Unit)).heap = none ∧
    (Cef.RefCounted.release (⟨(), 2, ()⟩ : Cef.RefCounted Unit Unit)).ret = 0 ∧
    (Cef.RefCounted.release (⟨(), 1, ()⟩ : Cef.RefCounted Unit Unit)).heap =
      some ⟨(), 0, ()⟩ ∧
    (Cef.RefCounted.release (⟨(), 1, ()⟩ : Cef.RefCounted Unit Unit)).ret = 1 := by
  refine ⟨rfl, rfl, ?_, rfl⟩
  simp [Cef.RefCounted.release, Cef.RefCounted.make_temp, Cef.ManuallyDrop.scopeDrop,
    Cef.usizeSub1, Cef.USIZE_MOD]

/-- C9: `has_one_ref` returns 1 iff the counter equals 1 (else 0),
`has_at_least_one_ref` returns 1 iff the counter is at least 1 (else 0), and
neither call changes the counter, the vtable, or the payload (the heap cell
after the call holds the container unchanged). -/
theorem Cef.introspection_pure {C R : Type} (s : Cef.RefCounted C R) :
    ((Cef.RefCounted.has_one_ref s).2 = 1 ↔ s.refcount = 1) ∧
    (s.refcount ≠ 1 → (Cef.RefCounted.has_one_ref s).2 = 0) ∧
    (Cef.RefCounted.has_one_ref s).1 = some s ∧
    ((Cef.RefCounted.has_at_least_one_ref s).2 = 1 ↔ 1 ≤ s.refcount) ∧
    (s.refcount = 0 → (Cef.RefCounted.has_at_least_one_ref s).2 = 0) ∧
    (Cef.RefCounted.has_at_least_one_ref s).1 = some s := by
  unfold Cef.RefCounted.has_one_ref Cef.RefCounted.has_at_least_one_ref
    Cef.RefCounted.make_temp Cef.ManuallyDrop.scopeDrop
  refine ⟨?_, ?_, rfl, ?_, ?_, rfl⟩
  · by_cases h : s.refcount = 1 <;> simp [h]
  · intro h; simp [h]
  · by_cases h : s.refcount ≥ 1 <;> simp [h]
  · intro h; simp [h]

namespace Cef.Url

/-! ## `src/urlrequest.rs` — owning handles, `AuthCallback`, the
`URLRequestClient` trampolines -/

/-- One call through the `cef_base_ref_counted_t` function-pointer table of
the underlying foreign object. -/
inductive BaseRefOp
  | add_ref
  | release
deriving DecidableEq

/-- Effect of one base-table call on the underlying refcount under the foreign
refcount protocol (`add_ref` adds one unit, `release` removes one unit). -/
def refOpDelta : BaseRefOp → Int
  | .add_ref => 1
  | .release => -1

/-- Net refcount change of a sequence of base-table calls. -/
def refDelta (ops : List BaseRefOp) : Int :=
  (ops.map refOpDelta).sum

/-- Base-table calls performed by `impl From<*mut cef_urlrequest_t> for
URLRequest`: one `add_ref` on the wrapped pointer. -/
def urlrequestFromOps : List BaseRefOp := [.add_ref]

/-- Base-table calls performed by `impl Drop for URLRequest`: one `release`. -/
def urlrequestDropOps : List BaseRefOp := [.release]

/-- Base-table calls performed by `impl From<*mut cef_auth_callback_t> for
AuthCallback`: one `add_ref`. -/
def authCallbackFromOps : List BaseRefOp := [.add_ref]

/-- Base-table calls performed by `AuthCallback::cont`: after invoking the
`cont` vtable slot (which is not a base-table call), the function body ends
with `((&*self.0).base.release.unwrap())(...)`. -/
def authCallbackContOps : List BaseRefOp := [.release]

/-- Base-table calls performed by `AuthCallback::cancel`: after invoking the
`cancel` vtable slot, the body ends with a `base.release` call. -/
def authCallbackCancelOps : List BaseRefOp := [.release]

/-- Base-table calls performed by `impl Drop for AuthCallback`: one
`release`. -/
def authCallbackDropOps : List BaseRefOp := [.release]

/-- A raw `cef_string_t` argument as it reaches a trampoline: a null pointer,
malformed wide data, or valid data decoding to a `String`. -/
inductive RawCefString
  | null
  | malformed
  | valid (s : String)

/-- Modelled from the spec: `CefString::copy_raw_to_string` lives in
`src/string.rs`, which is not part of the sources under study; per spec §6 the
conversion is a lossless decode of a wide representation, and per §7 it can
fail on malformed string data or a null pointer, in which case it yields no
value. -/
def copy_raw_to_string : RawCefString → Option String
  | .null => none
  | .malformed => none
  | .valid s => some s

/-- `URLRequestClientWrapper::get_auth_credentials` (the trampoline installed
in the `get_auth_credentials` slot), from the source:

```rust
(*this).get_auth_credentials(is_proxy != 0,
    &CefString::copy_raw_to_string(host).unwrap(), port as u16,
    &CefString::copy_raw_to_string(realm).unwrap(),
    &CefString::copy_raw_to_string(scheme).unwrap(),
    AuthCallback::from(callback)) as i32
```

The three `.unwrap()` calls are not surrounded by any `catch_unwind`-style
boundary, so a failed conversion panics out of the trampoline; the result
`none` models that panic escaping the `extern "C"` body instead of a return
value.  `callback` is passed through to the delegate (its `AuthCallback::from`
conversion is a base-table `add_ref`, see `authCallbackFromOps`). -/
def get_auth_credentials
    (client : Bool → String → Nat → String → String → Nat → Bool)
    (is_proxy : Int) (host : RawCefString) (port : Int)
    (realm scheme : RawCefString) (callback : Nat) : Option Int :=
  match copy_raw_to_string host with
  | none => none
  | some h =>
      match copy_raw_to_string realm with
      | none => none
      | some r =>
          match copy_raw_to_string scheme with
          | none => none
          | some sc =>
              some (if client (is_proxy != 0) h (port % 65536).toNat r sc callback
                then 1 else 0)

/-- `URLRequestClientWrapper::request_complete`, restricted to its effect on
the container behind the `self_` pointer: `make_temp` the pointer, dispatch
`on_request_complete` on the payload (which acts on the `request` argument,
not on the container), and let the borrowed `ManuallyDrop` view drop at end of
scope.  The value is the heap cell of the container after the call. -/
def request_complete_container {C R : Type} (s : Cef.RefCounted C R) :
    Option (Cef.RefCounted C R) :=
  let this := Cef.RefCounted.make_temp s
  this.scopeDrop (some this.value)

/-- One trampoline invocation acting on the container's heap cell. -/
def invokeTrampoline {C R : Type} (h : Option (Cef.RefCounted C R)) :
    Option (Cef.RefCounted C R) :=
  h.bind request_complete_container

end Cef.Url

/-- C2 (code bug): `URLRequest::from` and `AuthCallback::from` each perform
exactly one `add_ref`, and each `Drop` impl performs exactly one `release` —
but `AuthCallback::cont` performs an additional `release` of its own, so the
scenario "construct from raw pointer, call `cont` once, drop" has net
refcount effect −1 instead of the claimed 0 (and likewise with `cancel`). -/
theorem Cef.auth_callback_refcount_unbalanced :
    Cef.Url.refDelta Cef.Url.urlrequestFromOps = 1 ∧
    Cef.Url.refDelta Cef.Url.authCallbackFromOps = 1 ∧
    Cef.Url.refDelta Cef.Url.authCallbackDropOps = -1 ∧
    Cef.Url.refDelta (Cef.Url.authCallbackFromOps ++ Cef.Url.authCallbackContOps
      ++ Cef.Url.authCallbackDropOps) = -1 ∧
    Cef.Url.refDelta (Cef.Url.authCallbackFromOps ++ Cef.Url.authCallbackCancelOps
      ++ Cef.Url.authCallbackDropOps) = -1 := by
  decide

/-- C5 (code bug): when conversion of the `host` string fails (null pointer),
the `get_auth_credentials` trampoline does not return the failure value 0 —
the `.unwrap()` panic escapes the trampoline (`none`); the same body does
return a value when all three strings convert. -/
theorem Cef.get_auth_credentials_unwrap_panics :
    Cef.Url.get_auth_credentials (fun _ _ _ _ _ _ => false) 0 .null 80
      (.valid "realm") (.valid "basic") 0 = none ∧
    Cef.Url.get_auth_credentials (fun _ _ _ _ _ _ => false) 0 (.valid "host") 80
      (.valid "realm") (.valid "basic") 0 = some 0 := by
  exact ⟨rfl, rfl⟩

/-- C8: constructing a borrowed view of the container from a raw pointer
inside a trampoline (`RefCounted::make_temp`) and then dropping it never
changes the refcount and never deallocates the container, and consequently any
number of trampoline invocations leaves the container's heap cell — counter,
payload and liveness — exactly as it was. -/
theorem Cef.borrowed_view_no_effect {C R : Type} (s : Cef.RefCounted C R) (n : Nat) :
    (Cef.RefCounted.make_temp s).scopeDrop (some s) = some s ∧
    Cef.Url.invokeTrampoline^[n] (some s) = some s := by
  refine ⟨rfl, ?_⟩
  induction n with
  | zero => rfl
  | succ k ih =>
      rw [Function.iterate_succ_apply,
        show Cef.Url.invokeTrampoline (some s) = some s from rfl, ih]

namespace Cef.Rph

/-! ## `src/render_process_handler.rs` — the render-process-handler vtable and
its trampolines

`B`, `F`, `V` stand for the already-converted safe argument types (`Browser`,
`Frame`, `V8Context`); `M` is the delegate's result type.  The
`cef_callback_impl!` macro converts each raw pointer argument to its safe type
before the body runs; the bodies below are the bodies written in the source. -/

/-- The part of the `RenderProcessHandler` delegate trait relevant to the V8
context events (trait methods `on_context_created` / `on_context_released`). -/
structure RenderProcessHandler (B F V M : Type) where
  on_context_created : B → F → V → M
  on_context_released : B → F → V → M

/-- Trampoline body `context_created` from the `cef_callback_impl!` block:
dispatches `on_context_created` on the delegate. -/
def context_created {B F V M : Type} (d : RenderProcessHandler B F V M)
    (browser : B) (frame : F) (context : V) : M :=
  d.on_context_created browser frame context

/-- Trampoline body `context_released` from the `cef_callback_impl!` block,
exactly as in the source (lines 191–202):

```rust
fn context_released<C: Client>(&self, browser: ..., frame: ..., context: ...) {
    self.delegate.on_context_created(browser, frame, context)
}
```

Note the body calls `on_context_created`. -/
def context_released {B F V M : Type} (d : RenderProcessHandler B F V M)
    (browser : B) (frame : F) (context : V) : M :=
  d.on_context_created browser frame context

/-- The two context slots of `cef_render_process_handler_t` as populated by
`RenderProcessHandlerWrapper::wrap` (`on_context_created: Some(Self::context_created)`,
`on_context_released: Some(Self::context_released)`). -/
structure CefRenderProcessHandlerT (B F V M : Type) where
  on_context_created : Option (B → F → V → M)
  on_context_released : Option (B → F → V → M)

/-- `RenderProcessHandlerWrapper::wrap`, restricted to the two context slots. -/
def wrap {B F V M : Type} (d : RenderProcessHandler B F V M) :
    CefRenderProcessHandlerT B F V M :=
  { on_context_created := some (context_created d)
    on_context_released := some (context_released d) }

/-- A delegate whose two context methods are observably different. -/
def probeDelegate : RenderProcessHandler Nat Nat Nat Nat :=
  { on_context_created := fun _ _ _ => 0
    on_context_released := fun _ _ _ => 1 }

end Cef.Rph

/-- C3 (code bug): invoking the trampoline installed in the
`on_context_released` slot dispatches the delegate's `on_context_created`
method, not `on_context_released`: on a delegate whose `on_context_created`
returns 0 and whose `on_context_released` returns 1, the slot's trampoline
returns 0 (while the `on_context_created` slot correctly dispatches
`on_context_created`). -/
theorem Cef.context_released_dispatch_bug :
    ((Cef.Rph.wrap Cef.Rph.probeDelegate).on_context_released.map
      (fun f => f 7 8 9)) = some 0 ∧
    Cef.Rph.probeDelegate.on_context_released 7 8 9 = 1 ∧
    ((Cef.Rph.wrap Cef.Rph.probeDelegate).on_context_created.map
      (fun f => f 7 8 9)) = some 0 ∧
    Cef.Rph.probeDelegate.on_context_created 7 8 9 = 0 := by
  exact ⟨rfl, rfl, rfl, rfl⟩

namespace Cef.Bh

/-! ## `src/browser_host.rs` — BrowserHost operations over optional vtable
slots, and the one-shot callback cells

Each operation receives its `cef_browser_host_t` function-pointer slot as an
`Option` of an abstract foreign function.  Operations whose Rust body calls
`.unwrap()` on the slot return an `Option` result in which `none` models the
panic on a null slot. -/

/-- `BrowserHost::send_dev_tools_message`:

```rust
self.0.send_dev_tools_message.unwrap()(self.as_ptr(), message.as_ptr() as *const _,
    message.len()) != 0
```

The slot is consumed with `.unwrap()`: a null slot panics (`none`); a present
slot is called with the message bytes and its `c_int` result compared with 0. -/
def send_dev_tools_message (slot : Option (List Nat → Int)) (message : List Nat) :
    Option Bool :=
  match slot with
  | some f => some (f message != 0)
  | none => none

/-- `BrowserHost::get_windowless_frame_rate`:
`self.0.get_windowless_frame_rate.map(|f| f(ptr)).unwrap_or(30)`. -/
def get_windowless_frame_rate (slot : Option (Unit → Int)) : Int :=
  match slot with
  | some f => f ()
  | none => 30

/-- `BrowserHost::try_close_browser`:
`self.0.try_close_browser.map(|f| f(ptr) != 0).unwrap_or(false)`. -/
def try_close_browser (slot : Option (Unit → Int)) : Bool :=
  match slot with
  | some f => f () != 0
  | none => false

/-- `BrowserHost::close_browser`: `if let Some(f) = slot { f(ptr, force_close
as i32) }`.  The result records whether the foreign slot was invoked (`false`
= silent no-op on a null slot). -/
def close_browser (slot : Option (Int → Unit)) (force_close : Bool) : Bool :=
  match slot with
  | some f =>
      let _ := f (if force_close then 1 else 0)
      true
  | none => false

/-- `DownloadImageCallbackWrapper`: the one-shot cell
`Mutex<Option<Box<dyn Send + FnOnce(&str, u16, Option<Image>)>>>`.  `I` is the
`Image` handle type, `E` the closure's result. -/
structure DownloadImageCallbackWrapper (I E : Type) where
  callback : Option (String → Nat → Option I → E)

/-- `DownloadImageCallbackWrapper::new`: populate the cell. -/
def DownloadImageCallbackWrapper.new {I E : Type}
    (callback : String → Nat → Option I → E) : DownloadImageCallbackWrapper I E :=
  { callback := some callback }

/-- Trampoline body `download_image_finished`:

```rust
if let Some(callback) = self.callback.lock().take() {
    callback(&String::from(image_url), http_status_code as u16, image);
}
```

Returns the cell after the call (`lock().take()` always empties it) and the
invocation's result when the closure was present (`none` = silent no-op).
`http_status_code as u16` truncates the `c_int` modulo `2 ^ 16`. -/
def download_image_finished {I E : Type} (w : DownloadImageCallbackWrapper I E)
    (image_url : String) (http_status_code : Int) (image : Option I) :
    DownloadImageCallbackWrapper I E × Option E :=
  match w.callback with
  | some cb => (⟨none⟩, some (cb image_url (http_status_code % 65536).toNat image))
  | none => (⟨none⟩, none)

/-- `PDFPrintCallbackWrapper`: the one-shot cell
`Mutex<Option<Box<dyn Send + FnOnce(&str, bool)>>>`. -/
structure PDFPrintCallbackWrapper (E : Type) where
  callback : Option (String → Bool → E)

/-- `PDFPrintCallbackWrapper::new`: populate the cell. -/
def PDFPrintCallbackWrapper.new {E : Type} (callback : String → Bool → E) :
    PDFPrintCallbackWrapper E :=
  { callback := some callback }

/-- Trampoline body `pdf_print_finished`:

```rust
if let Some(callback) = self.callback.lock().take() {
    callback(&String::from(path), ok);
}
```

(`ok` reaches the body already converted from `c_int` to `bool` by the
`cef_callback_impl!` macro.) -/
def pdf_print_finished {E : Type} (w : PDFPrintCallbackWrapper E)
    (path : String) (ok : Bool) : PDFPrintCallbackWrapper E × Option E :=
  match w.callback with
  | some cb => (⟨none⟩, some (cb path ok))
  | none => (⟨none⟩, none)

/-- `BrowserHost::download_image`:

```rust
if let Some(download_image) = self.0.download_image {
    unsafe { download_image(ptr, url, is_favicon as i32, max_image_size,
        bypass_cache as i32, DownloadImageCallbackWrapper::new(callback).wrap().into_raw()); }
}
```

The slot is modelled by its presence; the result is what crosses to the
foreign side: `some w` = the slot was invoked with the freshly constructed
one-shot wrapper `w`, `none` = the slot was null and the function returned
immediately, constructing nothing and dropping `callback` uninvoked. -/
def download_image {I E : Type} (slot : Option Unit) (_image_url : String)
    (_is_favicon : Bool) (_max_image_size : Nat) (_bypass_cache : Bool)
    (callback : String → Nat → Option I → E) :
    Option (DownloadImageCallbackWrapper I E) :=
  match slot with
  | some _ => some (DownloadImageCallbackWrapper.new callback)
  | none => none

/-- Modelled from the spec: `RunFileDialogCallbackWrapper` lives in
`src/file_dialog.rs`, which is not among the sources under study; per spec
§4.3 it is a One-Shot Callback Cell holding the completion closure (first
argument: selected filter index; second: the selected path(s), `none` on
cancellation). -/
structure RunFileDialogCallbackWrapper (E : Type) where
  callback : Option (Nat → Option (List String) → E)

/-- Modelled from the spec: populating the one-shot cell. -/
def RunFileDialogCallbackWrapper.new {E : Type}
    (callback : Nat → Option (List String) → E) : RunFileDialogCallbackWrapper E :=
  { callback := some callback }

/-- `BrowserHost::run_file_dialog`: `if let Some(run_file_dialog) =
self.0.run_file_dialog { ... RunFileDialogCallbackWrapper::new(callback)
.wrap().into_raw() ... }` — same shape as `download_image`: on a null slot the
function returns immediately, constructing nothing and dropping `callback`
uninvoked. -/
def run_file_dialog {E : Type} (slot : Option Unit) (_mode : Nat)
    (_title _default_file_path : Option String) (_accept_filters : List String)
    (_selected_accept_filter : Int) (callback : Nat → Option (List String) → E) :
    Option (RunFileDialogCallbackWrapper E) :=
  match slot with
  | some _ => some (RunFileDialogCallbackWrapper.new callback)
  | none => none

end Cef.Bh

/-- C4 (counterexample): `send_dev_tools_message` with a null
`send_dev_tools_message` slot does not return a value — the body's
`.unwrap()` on the slot panics. -/
theorem Cef.send_dev_tools_message_null_slot_panics :
    Cef.Bh.send_dev_tools_message none [123] = none := by
  exact rfl

/-- C4 (amended): BrowserHost operations that check their slot for presence
treat a null slot as a silent no-op or the documented default —
`get_windowless_frame_rate` returns the default 30, `try_close_browser`
returns `false`, `close_browser` silently skips the foreign call — but
`send_dev_tools_message` unwraps its slot and panics on a null slot instead
of returning a value. -/
theorem Cef.browser_host_null_slot_behavior :
    Cef.Bh.get_windowless_frame_rate none = 30 ∧
    Cef.Bh.try_close_browser none = false ∧
    (∀ force_close, Cef.Bh.close_browser none force_close = false) ∧
    (∀ message, Cef.Bh.send_dev_tools_message none message = none) := by
  exact ⟨rfl, rfl, fun _ => rfl, fun _ => rfl⟩

/-- C7: the one-shot callback cells invoke their wrapped closure at most once:
invoking the `download_image_finished` (resp. `pdf_print_finished`) trampoline
twice in sequence executes the closure exactly once — the first invocation
takes the closure and runs it on the converted arguments, the second finds the
emptied slot and is a no-op (the bodies are total: no panic). -/
theorem Cef.one_shot_cells_invoke_once {I E E2 : Type}
    (cb : String → Nat → Option I → E) (u1 u2 : String) (c1 c2 : Int)
    (i1 i2 : Option I) (cb2 : String → Bool → E2) (p1 p2 : String)
    (o1 o2 : Bool) :
    (Cef.Bh.download_image_finished (Cef.Bh.DownloadImageCallbackWrapper.new cb)
        u1 c1 i1).2 = some (cb u1 (c1 % 65536).toNat i1) ∧
    (Cef.Bh.download_image_finished
      (Cef.Bh.download_image_finished (Cef.Bh.DownloadImageCallbackWrapper.new cb)
        u1 c1 i1).1 u2 c2 i2) = (⟨none⟩, none) ∧
    (Cef.Bh.pdf_print_finished (Cef.Bh.PDFPrintCallbackWrapper.new cb2)
        p1 o1).2 = some (cb2 p1 o1) ∧
    (Cef.Bh.pdf_print_finished
      (Cef.Bh.pdf_print_finished (Cef.Bh.PDFPrintCallbackWrapper.new cb2)
        p1 o1).1 p2 o2) = (⟨none⟩, none) := by
  exact ⟨rfl, rfl, rfl, rfl⟩

/-- C10: with a null vtable slot, `BrowserHost::download_image` and
`BrowserHost::run_file_dialog` return immediately: no wrapper object is
constructed, nothing crosses to the foreign side, and the caller-supplied
completion closure is dropped without ever being invoked (no error, no
callback). -/
theorem Cef.null_slot_drops_callback {I E E2 : Type} (url : String)
    (is_favicon : Bool) (max_image_size : Nat) (bypass_cache : Bool)
    (cb : String → Nat → Option I → E) (mode : Nat)
    (title default_file_path : Option String) (accept_filters : List String)
    (selected_accept_filter : Int) (cb2 : Nat → Option (List String) → E2) :
    Cef.Bh.download_image none url is_favicon max_image_size bypass_cache cb
      = none ∧
    Cef.Bh.run_file_dialog none mode title default_file_path accept_filters
      selected_accept_filter cb2 = none := by
  exact ⟨rfl, rfl⟩
